import Mathlib

/-!
Verification of the MLX-LM wrapper process-lifecycle controller
(mlx_lm_wrapper.py): model-name normalization, the process kill sequence,
readiness polling, model switching, and the status endpoint, embedded as
pure functions over explicit environments that describe OS and network
behavior (poll results, health-check answers, signal-delivery outcomes).
Child processes are identified by numeric pids; the observable OS actions
taken by the controller are collected in order as a trace.
-/

namespace MlxWrapper

/-- observable OS-level action emitted by the controller. `spawn` carries
the normalized model identifier passed on the launch command line. -/
inductive Action
  | sigterm (pid : Nat)
  | sigkill (pid : Nat)
  | spawn (pid : Nat) (model : String)
  deriving DecidableEq

/-- the two exception classes caught by `kill_process` in the source:
`ProcessLookupError` and `PermissionError`. -/
inductive SigError
  | processLookup
  | permission
  deriving DecidableEq

/-- environment for one `kill_process` call: the poll result at entry,
whether `os.killpg(pgid, SIGTERM)` raises, the poll results during the
5-second grace loop and the final pre-SIGKILL check (indices 0..5), and
whether `os.killpg(pgid, SIGKILL)` raises. -/
structure KillEnv where
  alreadyDead : Bool
  termErr : Option SigError
  deadDuring : Nat → Bool
  killErr : Option SigError

/-- result of a `kill_process` call: the signals actually delivered,
the exception escaping the call (if any), and whether the target process
is no longer alive when the call returns (SIGKILL, once delivered, is
taken to end the process; a `ProcessLookupError` means the process was
already gone). -/
structure KillOutcome where
  acts : List Action
  raised : Option SigError
  terminated : Bool
  deriving DecidableEq

/-- embedding of `kill_process` (mlx_lm_wrapper.py lines 125-147):
return immediately if the handle is absent or already exited; otherwise
SIGTERM the process group, poll up to 5 times, then SIGKILL if still
alive; `ProcessLookupError` and `PermissionError` are caught and logged,
so no exception ever escapes. -/
def kill_process (process : Option Nat) (env : KillEnv) : KillOutcome :=
  match process with
  | none => ⟨[], none, true⟩
  | some pid =>
    if env.alreadyDead then ⟨[], none, true⟩
    else
      match env.termErr with
      | some SigError.processLookup => ⟨[], none, true⟩
      | some SigError.permission => ⟨[], none, false⟩
      | none =>
        if (List.range 5).any (fun i => env.deadDuring i) then
          ⟨[Action.sigterm pid], none, true⟩
        else if env.deadDuring 5 then
          ⟨[Action.sigterm pid], none, true⟩
        else
          match env.killErr with
          | none => ⟨[Action.sigterm pid, Action.sigkill pid], none, true⟩
          | some SigError.processLookup => ⟨[Action.sigterm pid], none, true⟩
          | some SigError.permission => ⟨[Action.sigterm pid], none, false⟩

/-- outcome of the readiness-polling loop in `start_mlx_server`. -/
inductive PollResult
  | ready
  | died
  | timedOut
  deriving DecidableEq

/-- embedding of the `while retries < max_retries` loop of
`start_mlx_server` (lines 94-118), recursing on the remaining budget.
`health i` is whether the GET on attempt `i` returns 200; `dead i` is
the `process.poll()` check made after incrementing `retries` on attempt
`i`. Returns the loop outcome and the final value of `retries`. -/
def pollGo (health dead : Nat → Bool) (retries : Nat) : Nat → PollResult × Nat
  | 0 => (PollResult.timedOut, retries)
  | n + 1 =>
    if health retries then (PollResult.ready, retries)
    else if dead retries then (PollResult.died, retries + 1)
    else pollGo health dead (retries + 1) n

/-- `max_retries = 60` in `start_mlx_server`. -/
def max_retries : Nat := 60

/-- the exceptions `start_mlx_server` can raise: `RuntimeError` with the
captured stderr when the child exits before readiness, and `TimeoutError`
when the attempt budget is exhausted. -/
inductive StartErr
  | died (stderr : String)
  | timedOut
  deriving DecidableEq

/-- environment for one `start_mlx_server` call: health-check answers per
attempt, liveness polls per attempt, the captured stderr text, and the
kill environment used by the cleanup `kill_process` on timeout. -/
structure StartEnv where
  health : Nat → Bool
  dead : Nat → Bool
  stderrText : String
  cleanupKenv : KillEnv

/-- the required namespace, the character list of "mlx-community/". -/
def mlxPre : List Char := ['m', 'l', 'x', '-', 'c', 'o', 'm', 'm', 'u', 'n', 'i', 't', 'y', '/']

/-- the character list of "openai/mlx-community/": the alternate provider
wrapping recognized by the source. -/
def openaiPre : List Char := ['o', 'p', 'e', 'n', 'a', 'i', '/'] ++ mlxPre

/-- embedding of the model-name formatting block of `start_mlx_server`
(lines 59-64) on character lists: if the name does not start with
"mlx-community/", strip a leading "openai/" when the name starts with
"openai/mlx-community/", else prepend "mlx-community/". -/
def normChars (name : List Char) : List Char :=
  if mlxPre.isPrefixOf name then name
  else if openaiPre.isPrefixOf name then List.drop 7 name
  else if mlxPre.isPrefixOf name then name
  else mlxPre ++ name

/-- the model-name normalization as a function on strings. -/
def normalizeModelName (s : String) : String := ⟨normChars s.data⟩

/-- embedding of `start_mlx_server` (lines 53-122): normalize the name,
spawn the child (one `spawn` action), poll for readiness; on success
return the process, on child death raise `RuntimeError` with the captured
stderr (no kill: the child is already gone), on timeout call
`kill_process` on the half-started child and raise `TimeoutError`. -/
def start_mlx_server (pid : Nat) (model_name : String) (env : StartEnv) :
    Except StartErr Nat × List Action :=
  let spawnAct := Action.spawn pid (normalizeModelName model_name)
  match (pollGo env.health env.dead 0 max_retries).1 with
  | PollResult.ready => (Except.ok pid, [spawnAct])
  | PollResult.died => (Except.error (StartErr.died env.stderrText), [spawnAct])
  | PollResult.timedOut =>
      (Except.error StartErr.timedOut,
        spawnAct :: (kill_process (some pid) env.cleanupKenv).acts)

/-- the two module-level variables that make up the dynamic slot:
`current_model` and `model_process`. -/
structure WrapperState where
  current_model : Option String
  model_process : Option Nat
  deriving DecidableEq

/-- result of `switch_model`, structured: the source returns
`(True, "Model already running")`, `(True, "Model switched successfully")`
or `(False, "Failed to start model: ...")`. -/
inductive SwitchResult
  | alreadyRunning
  | switched
  | failed (e : StartErr)
  deriving DecidableEq

/-- environment for one `switch_model` call: the poll made during the
already-running check, the kill environment for stopping the old process,
and the start environment for the new one. -/
structure SwitchEnv where
  oldAlive : Bool
  oldKenv : KillEnv
  senv : StartEnv

/-- the already-running test of `switch_model` (lines 156-160): the check
`current_model == new_model and model_process and model_process.poll() is
None`, with `oldAlive` the poll made there. -/
def alreadyRunningCond (st : WrapperState) (new_model : String) (env : SwitchEnv) : Prop :=
  st.current_model = some new_model ∧ st.model_process.isSome = true ∧ env.oldAlive = true

instance (st : WrapperState) (m : String) (env : SwitchEnv) :
    Decidable (alreadyRunningCond st m env) := by
  unfold alreadyRunningCond
  infer_instance

/-- the kill actions of the `if model_process is not None` block of
`switch_model` (lines 165-169): kill the recorded process, none if no
handle is recorded. -/
def killActsOf (st : WrapperState) (env : SwitchEnv) : List Action :=
  match st.model_process with
  | some p => (kill_process (some p) env.oldKenv).acts
  | none => []

/-- the slot state after the same block: both variables reset to None
when a handle was recorded, untouched otherwise. -/
def clearedOf (st : WrapperState) : WrapperState :=
  match st.model_process with
  | some _ => ⟨none, none⟩
  | none => st

/-- embedding of `switch_model` (lines 150-180), with `freshPid` the pid
of the process a launch would create. If the requested model equals the
recorded one and the recorded process polls alive, return already-running
and touch nothing. Otherwise kill the old process (if a handle is
recorded) and clear both slot variables, then start the new model: on
success record it, on failure leave the cleared state and report the
error. The emitted action trace is the kill actions followed by the start
actions. -/
def switch_model (st : WrapperState) (new_model : String) (freshPid : Nat) (env : SwitchEnv) :
    WrapperState × SwitchResult × List Action :=
  if alreadyRunningCond st new_model env then
    (st, SwitchResult.alreadyRunning, [])
  else
    match start_mlx_server freshPid new_model env.senv with
    | (Except.ok p, acts) =>
        (⟨some new_model, some p⟩, SwitchResult.switched, killActsOf st env ++ acts)
    | (Except.error e, acts) =>
        (clearedOf st, SwitchResult.failed e, killActsOf st env ++ acts)

/-- embedding of the dynamic half of the `/status` handler (lines
192-207): the status string is "running" exactly when a process handle is
recorded and polls alive, and the reported model is `current_model` as
stored. -/
def statusDynamic (st : WrapperState) (procAlive : Bool) : String × Option String :=
  (if st.model_process.isSome ∧ procAlive = true then "running" else "stopped",
   st.current_model)

/-- the slot invariant from the spec data model: a recorded model
identifier implies a recorded process handle. It holds initially (both
variables start as None) and is preserved by `switch_model`. -/
def Inv (st : WrapperState) : Prop :=
  st.current_model.isSome = true → st.model_process.isSome = true

instance (st : WrapperState) : Decidable (Inv st) := by
  unfold Inv
  infer_instance

/-- number of `spawn` actions in a trace. -/
def countSpawns : List Action → Nat
  | [] => 0
  | Action.spawn _ _ :: rest => countSpawns rest + 1
  | _ :: rest => countSpawns rest

/-- number of positions of `s` at which the pattern `pat` occurs as a
contiguous substring (for nonempty `pat`). -/
def countOcc (pat : List Char) : List Char → Nat
  | [] => if pat.isPrefixOf ([] : List Char) then 1 else 0
  | c :: rest => (if pat.isPrefixOf (c :: rest) then 1 else 0) + countOcc pat rest

/-- a Python runtime value, enough to distinguish the integer 11400 from
the set literal containing it. -/
inductive PyVal
  | int (n : Int)
  | str (s : String)
  | set (xs : List Int)
  deriving DecidableEq

/-- the module constant `MANAGEMENT_PORT = 11400`. -/
def MANAGEMENT_PORT : Nat := 11400

/-- default of `--autocomplete-model` (line 258). -/
def autocompleteModelDefault : PyVal := PyVal.str "mlx-community/Qwen2.5-Coder-3B-8bit"

/-- default of `--autocomplete-port` (line 264). -/
def autocompletePortDefault : PyVal := PyVal.int 11401

/-- default of `--dynamic-port` (line 270). -/
def dynamicPortDefault : PyVal := PyVal.int 11402

/-- default of `--management-port` as written in the source (line 276):
`default={MANAGEMENT_PORT}` is a Python set literal containing 11400
(curly braces outside an f-string), not the integer 11400 advertised by
the help text; `type=int` converts only command-line strings, never the
default, so an unsupplied flag leaves the set in `args.management_port`. -/
def managementPortDefault : PyVal := PyVal.set [(MANAGEMENT_PORT : Int)]

/-- default of `--host` (line 281). -/
def hostDefault : PyVal := PyVal.str "127.0.0.1"

/-- the port number the help text for `--management-port` documents as
the default (line 277: "default: 11400"). -/
def helpManagementPortDefault : Nat := 11400

/-- the value handed to `app.run(host=..., port=args.management_port)` at
line 303 when the flag is not supplied on the command line. -/
def appRunPortDefault : PyVal := managementPortDefault

/-! helper lemmas about the embedded operations, shared by the claim
theorems below. -/

/-- `kill_process` emits no spawn action in any environment. -/
theorem kill_countSpawns (proc : Option Nat) (env : KillEnv) :
    countSpawns (kill_process proc env).acts = 0 := by
  rcases proc with _ | pid
  · rfl
  · simp only [kill_process]
    repeat' first | rfl | split

/-- `kill_process` lets no exception escape: `ProcessLookupError` and
`PermissionError` are both caught by the `except` clause. -/
theorem kill_raised_none (proc : Option Nat) (env : KillEnv) :
    (kill_process proc env).raised = none := by
  rcases proc with _ | pid
  · rfl
  · simp only [kill_process]
    repeat' first | rfl | split

/-- when no signal delivery is denied, `kill_process` leaves the target
dead: every branch except the two permission-denied ones terminates the
process. -/
theorem kill_terminated_of_no_permission (proc : Option Nat) (env : KillEnv)
    (h1 : env.termErr ≠ some SigError.permission)
    (h2 : env.killErr ≠ some SigError.permission) :
    (kill_process proc env).terminated = true := by
  rcases proc with _ | pid
  · rfl
  · simp only [kill_process]
    split
    · rfl
    · rcases hterm : env.termErr with _ | e
      · simp only [hterm]
        split
        · rfl
        · split
          · rfl
          · rcases hkill : env.killErr with _ | e2
            · rfl
            · cases e2
              · rfl
              · exact absurd hkill h2
      · cases e
        · rfl
        · exact absurd hterm h1

/-- if neither a health success nor a death is observed on the attempts a
budget of `n` more iterations will reach, the polling loop runs the full
budget and times out. -/
theorem pollGo_timedOut (health dead : Nat → Bool) :
    ∀ n r, (∀ i, r ≤ i → i < r + n → health i = false) →
      (∀ i, r ≤ i → i < r + n → dead i = false) →
      pollGo health dead r n = (PollResult.timedOut, r + n) := by
  intro n
  induction n with
  | zero => intro r _ _; simp [pollGo]
  | succ n ih =>
    intro r hh hd
    have hh0 : health r = false := hh r (Nat.le_refl r) (by omega)
    have hd0 : dead r = false := hd r (Nat.le_refl r) (by omega)
    simp only [pollGo, hh0, hd0, Bool.false_eq_true, if_false]
    have := ih (r + 1) (fun i h1 h2 => hh i (by omega) (by omega))
      (fun i h1 h2 => hd i (by omega) (by omega))
    rw [this]
    congr 1
    omega

/-- if the child is first observed dead on attempt `k` before any health
success, the polling loop stops right there, after `k + 1` retries. -/
theorem pollGo_died (health dead : Nat → Bool) :
    ∀ n r k, r ≤ k → k < r + n →
      (∀ i, r ≤ i → i ≤ k → health i = false) →
      (∀ i, r ≤ i → i < k → dead i = false) →
      dead k = true →
      pollGo health dead r n = (PollResult.died, k + 1) := by
  intro n
  induction n with
  | zero => intro r k h1 h2; omega
  | succ n ih =>
    intro r k h1 h2 hh hd hk
    have hh0 : health r = false := hh r (Nat.le_refl r) h1
    simp only [pollGo, hh0, Bool.false_eq_true, if_false]
    by_cases hrk : r = k
    · subst hrk
      simp [hk]
    · have hd0 : dead r = false := hd r (Nat.le_refl r) (by omega)
      simp only [hd0, Bool.false_eq_true, if_false]
      exact ih (r + 1) k (by omega) (by omega)
        (fun i ha hb => hh i (by omega) hb)
        (fun i ha hb => hd i (by omega) hb) hk

/-- `start_mlx_server` when the poll loop reports readiness. -/
theorem start_eq_ready (pid : Nat) (m : String) (env : StartEnv)
    (h : (pollGo env.health env.dead 0 max_retries).1 = PollResult.ready) :
    start_mlx_server pid m env =
      (Except.ok pid, [Action.spawn pid (normalizeModelName m)]) := by
  unfold start_mlx_server
  rw [h]

/-- `start_mlx_server` when the poll loop observes the child dead. -/
theorem start_eq_died (pid : Nat) (m : String) (env : StartEnv)
    (h : (pollGo env.health env.dead 0 max_retries).1 = PollResult.died) :
    start_mlx_server pid m env =
      (Except.error (StartErr.died env.stderrText),
        [Action.spawn pid (normalizeModelName m)]) := by
  unfold start_mlx_server
  rw [h]

/-- `start_mlx_server` when the poll loop exhausts the budget: the
half-started child is handed to `kill_process` before raising. -/
theorem start_eq_timedOut (pid : Nat) (m : String) (env : StartEnv)
    (h : (pollGo env.health env.dead 0 max_retries).1 = PollResult.timedOut) :
    start_mlx_server pid m env =
      (Except.error StartErr.timedOut,
        Action.spawn pid (normalizeModelName m) ::
          (kill_process (some pid) env.cleanupKenv).acts) := by
  unfold start_mlx_server
  rw [h]

/-- the trace of a `start_mlx_server` call is the spawn of the new child
followed only by (possible) kill actions: exactly one spawn. -/
theorem start_acts_shape (pid : Nat) (m : String) (env : StartEnv) :
    ∃ tail, (start_mlx_server pid m env).2 =
        Action.spawn pid (normalizeModelName m) :: tail ∧
      countSpawns tail = 0 := by
  unfold start_mlx_server
  rcases h : (pollGo env.health env.dead 0 max_retries).1 with _ | _ | _
  · exact ⟨[], rfl, rfl⟩
  · exact ⟨[], rfl, rfl⟩
  · exact ⟨(kill_process (some pid) env.cleanupKenv).acts, rfl,
      kill_countSpawns _ _⟩

/-- a successful `start_mlx_server` returns the spawned pid itself. -/
theorem start_ok_val (pid q : Nat) (m : String) (env : StartEnv)
    (h : (start_mlx_server pid m env).1 = Except.ok q) : q = pid := by
  unfold start_mlx_server at h
  rcases hp : (pollGo env.health env.dead 0 max_retries).1 with _ | _ | _ <;>
    rw [hp] at h <;> simp_all

/-- `switch_model` in the already-running case touches nothing. -/
theorem switch_model_already (st : WrapperState) (m : String) (pid : Nat)
    (env : SwitchEnv) (h : alreadyRunningCond st m env) :
    switch_model st m pid env = (st, SwitchResult.alreadyRunning, []) := by
  unfold switch_model
  rw [if_pos h]

/-- `switch_model` outside the already-running case, when the start
succeeds. -/
theorem switch_model_ok (st : WrapperState) (m : String) (pid q : Nat)
    (env : SwitchEnv) (acts : List Action)
    (hc : ¬ alreadyRunningCond st m env)
    (h : start_mlx_server pid m env.senv = (Except.ok q, acts)) :
    switch_model st m pid env =
      (⟨some m, some q⟩, SwitchResult.switched, killActsOf st env ++ acts) := by
  unfold switch_model
  rw [if_neg hc, h]

/-- `switch_model` outside the already-running case, when the start
fails. -/
theorem switch_model_err (st : WrapperState) (m : String) (pid : Nat)
    (env : SwitchEnv) (e : StartErr) (acts : List Action)
    (hc : ¬ alreadyRunningCond st m env)
    (h : start_mlx_server pid m env.senv = (Except.error e, acts)) :
    switch_model st m pid env =
      (clearedOf st, SwitchResult.failed e, killActsOf st env ++ acts) := by
  unfold switch_model
  rw [if_neg hc, h]

/-- under the slot invariant, the post-kill state records nothing. -/
theorem clearedOf_state (st : WrapperState) (hInv : Inv st) :
    (clearedOf st).current_model = none ∧ (clearedOf st).model_process = none := by
  unfold clearedOf
  rcases hm : st.model_process with _ | p
  · constructor
    · rcases hc : st.current_model with _ | c
      · rfl
      · have := hInv (by rw [hc]; rfl)
        rw [hm] at this
        cases this
    · exact hm
  · exact ⟨rfl, rfl⟩

/-- `countSpawns` distributes over concatenation. -/
theorem countSpawns_append (a b : List Action) :
    countSpawns (a ++ b) = countSpawns a + countSpawns b := by
  induction a with
  | nil => simp [countSpawns]
  | cons x rest ih =>
    cases x with
    | sigterm p => simp [countSpawns, ih]
    | sigkill p => simp [countSpawns, ih]
    | spawn p m =>
      simp [countSpawns, ih]
      omega

/-- the kill block of `switch_model` emits no spawn. -/
theorem killActsOf_countSpawns (st : WrapperState) (env : SwitchEnv) :
    countSpawns (killActsOf st env) = 0 := by
  unfold killActsOf
  rcases st.model_process with _ | p
  · rfl
  · exact kill_countSpawns _ _

/-- a list is a prefix, in the Bool sense, of itself followed by
anything. -/
theorem isPrefixOf_self_append (l t : List Char) : l.isPrefixOf (l ++ t) = true :=
  List.isPrefixOf_iff_prefix.mpr (List.prefix_append l t)

/-! the claim theorems. -/

/-- C7, counterexample: on a live process whose group the caller is not
permitted to signal, `kill_process` catches the `PermissionError` inside
its `except (ProcessLookupError, PermissionError)` clause and returns
normally — nothing is raised and the process is left alive — so the
claim that it raises `PermissionError` exactly when the caller lacks
rights is false on the code. -/
theorem C7_counterexample :
    kill_process (some 5) ⟨false, some SigError.permission, fun _ => false, none⟩
      = ⟨[], none, false⟩ := by
  decide

/-- C7, amended: `kill_process` is idempotent and total: on an absent or
already-exited handle it is a no-op that raises nothing and reports the
process stopped; a process that is already gone (`ProcessLookupError`) is
treated as success; and it never raises at all — `PermissionError`
included, which is caught and logged, leaving termination unguaranteed. -/
theorem C7_terminate_contract (proc : Option Nat) (env : KillEnv) :
    (kill_process proc env).raised = none ∧
    (proc = none → kill_process proc env = ⟨[], none, true⟩) ∧
    (env.alreadyDead = true → kill_process proc env = ⟨[], none, true⟩) ∧
    (env.termErr = some SigError.processLookup →
      (kill_process proc env).terminated = true) := by
  refine ⟨kill_raised_none proc env, ?_, ?_, ?_⟩
  · rintro rfl
    rfl
  · intro h
    rcases proc with _ | pid
    · rfl
    · simp [kill_process, h]
  · intro h
    rcases proc with _ | pid
    · rfl
    · simp only [kill_process, h]
      split
      · rfl
      · rfl

/-- C7, witness: the contract applied to a stopped handle. -/
theorem C7_terminate_contract_witness :
    kill_process (some 3) ⟨true, none, fun _ => false, none⟩ = ⟨[], none, true⟩ :=
  (C7_terminate_contract (some 3) ⟨true, none, fun _ => false, none⟩).2.2.1 rfl

/-- C8, counterexample: the formatting block leaves any name that already
starts with "mlx-community/" untouched, so an input carrying the
namespace twice keeps both copies — normalization does not make the
required prefix present exactly once for every input. -/
theorem C8_counterexample :
    normalizeModelName "mlx-community/mlx-community/model-a"
      = "mlx-community/mlx-community/model-a" ∧
    countOcc mlxPre (normalizeModelName "mlx-community/mlx-community/model-a").data
      = 2 := by
  decide

/-- C8, amended: for every input the normalized identifier starts with
the required namespace "mlx-community/" and is no longer wrapped by the
alternate provider prefix "openai/mlx-community/"; inputs that already
contain the namespace internally keep their extra copies, so the prefix
is present exactly once only for inputs without internal occurrences. -/
theorem C8_normalized_has_namespace (name : List Char) :
    mlxPre.isPrefixOf (normChars name) = true ∧
    openaiPre.isPrefixOf (normChars name) = false := by
  unfold normChars
  by_cases h1 : mlxPre.isPrefixOf name = true
  · rw [if_pos h1]
    obtain ⟨t, rfl⟩ := List.isPrefixOf_iff_prefix.mp h1
    exact ⟨h1, rfl⟩
  · rw [if_neg h1]
    by_cases h2 : openaiPre.isPrefixOf name = true
    · rw [if_pos h2]
      obtain ⟨t, rfl⟩ := List.isPrefixOf_iff_prefix.mp h2
      constructor
      · show mlxPre.isPrefixOf (List.drop 7 (openaiPre ++ t)) = true
        have hdrop : List.drop 7 (openaiPre ++ t) = mlxPre ++ t := rfl
        rw [hdrop]
        exact isPrefixOf_self_append mlxPre t
      · show openaiPre.isPrefixOf (List.drop 7 (openaiPre ++ t)) = false
        rfl
    · rw [if_neg h2, if_neg h1]
      exact ⟨isPrefixOf_self_append mlxPre name, rfl⟩

/-- C9: the `--management-port` flag has no usable default: the source
writes `default={MANAGEMENT_PORT}`, a Python set literal containing
11400, not the integer 11400 its help text documents (`type=int` only
converts command-line strings, never the default), so an invocation
without the flag hands `app.run` a set where a port number is expected;
the other four configuration parameters do have usable defaults. -/
theorem C9_management_port_default :
    managementPortDefault = PyVal.set [11400] ∧
    (∀ n : Int, managementPortDefault ≠ PyVal.int n) ∧
    appRunPortDefault ≠ PyVal.int (helpManagementPortDefault : Int) ∧
    autocompletePortDefault = PyVal.int 11401 ∧
    dynamicPortDefault = PyVal.int 11402 ∧
    hostDefault = PyVal.str "127.0.0.1" ∧
    autocompleteModelDefault = PyVal.str "mlx-community/Qwen2.5-Coder-3B-8bit" :=
  ⟨rfl, fun _ h => PyVal.noConfusion h, fun h => PyVal.noConfusion h,
    rfl, rfl, rfl, rfl⟩

/-- a successful switch records the requested model with the fresh pid,
and its trace holds exactly one spawn. -/
theorem switch_model_switched_state (st : WrapperState) (m : String) (pid : Nat)
    (env : SwitchEnv)
    (h : (switch_model st m pid env).2.1 = SwitchResult.switched) :
    (switch_model st m pid env).1 = ⟨some m, some pid⟩ ∧
    countSpawns (switch_model st m pid env).2.2 = 1 := by
  by_cases hc : alreadyRunningCond st m env
  · rw [switch_model_already st m pid env hc] at h
    exact absurd h (by simp)
  · rcases hs : start_mlx_server pid m env.senv with ⟨r, acts⟩
    obtain ⟨tail, hacts, htail⟩ := start_acts_shape pid m env.senv
    rw [hs] at hacts
    rcases r with e | q
    · rw [switch_model_err st m pid env e acts hc hs] at h
      exact absurd h (by simp)
    · have hq : q = pid := start_ok_val pid q m env.senv (by rw [hs])
      rw [switch_model_ok st m pid q env acts hc hs, hq]
      refine ⟨rfl, ?_⟩
      show countSpawns (killActsOf st env ++ acts) = 1
      have hacts2 : acts = Action.spawn pid (normalizeModelName m) :: tail := hacts
      rw [countSpawns_append, killActsOf_countSpawns, hacts2]
      show 0 + (countSpawns tail + 1) = 1
      rw [htail]

/-- the slot invariant (model recorded implies handle recorded) is
preserved by every `switch_model` call: states with a model but no
process are unreachable. -/
theorem switch_model_preserves_inv (st : WrapperState) (m : String) (pid : Nat)
    (env : SwitchEnv) (hInv : Inv st) :
    Inv (switch_model st m pid env).1 := by
  by_cases hc : alreadyRunningCond st m env
  · rw [switch_model_already st m pid env hc]
    exact hInv
  · rcases hs : start_mlx_server pid m env.senv with ⟨r, acts⟩
    rcases r with e | q
    · rw [switch_model_err st m pid env e acts hc hs]
      intro h
      rw [(clearedOf_state st hInv).1] at h
      exact Bool.noConfusion h
    · rw [switch_model_ok st m pid q env acts hc hs]
      intro _
      rfl

/-- C2, counterexample: with "model-a" recorded and running, a failed
switch to "model-b" leaves the slot with no recorded model — the source
resets both slot variables before the start attempt — not with the prior
model "model-a" as the claim states. -/
theorem C2_counterexample :
    (switch_model ⟨some "model-a", some 1⟩ "model-b" 2
        ⟨true, ⟨true, none, fun _ => false, none⟩,
          ⟨fun _ => false, fun _ => true, "boom",
            ⟨true, none, fun _ => false, none⟩⟩⟩).2.1
      = SwitchResult.failed (StartErr.died "boom") ∧
    (switch_model ⟨some "model-a", some 1⟩ "model-b" 2
        ⟨true, ⟨true, none, fun _ => false, none⟩,
          ⟨fun _ => false, fun _ => true, "boom",
            ⟨true, none, fun _ => false, none⟩⟩⟩).1.current_model
      = none ∧
    (none : Option String) ≠ some "model-a" := by
  decide

/-- C2, amended: on every invariant-satisfying state, the recorded model
after `switch_model` equals the requested one exactly when the result is
switched or already-running; when the result is failed the slot records
no model at all (cleared), regardless of what ran before. -/
theorem C2_recorded_model (st : WrapperState) (m : String) (pid : Nat)
    (env : SwitchEnv) (hInv : Inv st) :
    ((switch_model st m pid env).1.current_model = some m ↔
      ((switch_model st m pid env).2.1 = SwitchResult.switched ∨
       (switch_model st m pid env).2.1 = SwitchResult.alreadyRunning)) ∧
    (∀ e, (switch_model st m pid env).2.1 = SwitchResult.failed e →
      (switch_model st m pid env).1.current_model = none) := by
  by_cases hc : alreadyRunningCond st m env
  · rw [switch_model_already st m pid env hc]
    constructor
    · simp [hc.1]
    · intro e h
      exact absurd h (by simp)
  · rcases hs : start_mlx_server pid m env.senv with ⟨r, acts⟩
    rcases r with e | q
    · rw [switch_model_err st m pid env e acts hc hs]
      have hcl := clearedOf_state st hInv
      constructor
      · show (clearedOf st).current_model = some m ↔ _
        rw [hcl.1]
        simp
      · intro e2 _
        exact hcl.1
    · rw [switch_model_ok st m pid q env acts hc hs]
      constructor
      · simp
      · intro e h
        exact absurd h (by simp)

/-- C2, witness: a successful switch from the empty slot. -/
theorem C2_recorded_model_witness :
    ((switch_model ⟨none, none⟩ "m" 1
        ⟨true, ⟨true, none, fun _ => false, none⟩,
          ⟨fun _ => true, fun _ => false, "",
            ⟨true, none, fun _ => false, none⟩⟩⟩).1.current_model = some "m" ↔
      ((switch_model ⟨none, none⟩ "m" 1
        ⟨true, ⟨true, none, fun _ => false, none⟩,
          ⟨fun _ => true, fun _ => false, "",
            ⟨true, none, fun _ => false, none⟩⟩⟩).2.1 = SwitchResult.switched ∨
       (switch_model ⟨none, none⟩ "m" 1
        ⟨true, ⟨true, none, fun _ => false, none⟩,
          ⟨fun _ => true, fun _ => false, "",
            ⟨true, none, fun _ => false, none⟩⟩⟩).2.1
          = SwitchResult.alreadyRunning)) ∧
    (∀ e, (switch_model ⟨none, none⟩ "m" 1
        ⟨true, ⟨true, none, fun _ => false, none⟩,
          ⟨fun _ => true, fun _ => false, "",
            ⟨true, none, fun _ => false, none⟩⟩⟩).2.1 = SwitchResult.failed e →
      (switch_model ⟨none, none⟩ "m" 1
        ⟨true, ⟨true, none, fun _ => false, none⟩,
          ⟨fun _ => true, fun _ => false, "",
            ⟨true, none, fun _ => false, none⟩⟩⟩).1.current_model = none) :=
  C2_recorded_model ⟨none, none⟩ "m" 1
    ⟨true, ⟨true, none, fun _ => false, none⟩,
      ⟨fun _ => true, fun _ => false, "",
        ⟨true, none, fun _ => false, none⟩⟩⟩ (by decide)

/-- C3, counterexample: the already-running test compares the raw
identifiers, not the normalized ones. "model-a" and
"mlx-community/model-a" normalize to the same model, yet a switch to
"model-a" while "mlx-community/model-a" is recorded and alive kills the
old process and spawns a new one instead of returning already-running. -/
theorem C3_counterexample :
    normalizeModelName "model-a" = normalizeModelName "mlx-community/model-a" ∧
    (switch_model ⟨some "mlx-community/model-a", some 1⟩ "model-a" 2
        ⟨true, ⟨false, none, fun _ => true, none⟩,
          ⟨fun _ => true, fun _ => false, "",
            ⟨true, none, fun _ => false, none⟩⟩⟩).2.1
      = SwitchResult.switched ∧
    (switch_model ⟨some "mlx-community/model-a", some 1⟩ "model-a" 2
        ⟨true, ⟨false, none, fun _ => true, none⟩,
          ⟨fun _ => true, fun _ => false, "",
            ⟨true, none, fun _ => false, none⟩⟩⟩).2.2
      = [Action.sigterm 1, Action.spawn 2 "mlx-community/model-a"] := by
  decide

/-- C3, amended: `switch_model` is idempotent for a literally identical
identifier (the source compares the raw strings, with no normalization
before the comparison): after a successful switch to `m`, a second call
with the same `m` whose process polls alive returns already-running,
spawns nothing, kills nothing, and leaves the state untouched; across the
two calls exactly one process start occurs. -/
theorem C3_idempotent (st : WrapperState) (m : String) (pid1 pid2 : Nat)
    (env1 env2 : SwitchEnv)
    (h1 : (switch_model st m pid1 env1).2.1 = SwitchResult.switched)
    (h2 : env2.oldAlive = true) :
    countSpawns (switch_model st m pid1 env1).2.2 = 1 ∧
    switch_model (switch_model st m pid1 env1).1 m pid2 env2 =
      ((switch_model st m pid1 env1).1, SwitchResult.alreadyRunning, []) := by
  obtain ⟨hst, hcount⟩ := switch_model_switched_state st m pid1 env1 h1
  refine ⟨hcount, ?_⟩
  rw [hst]
  exact switch_model_already ⟨some m, some pid1⟩ m pid2 env2 ⟨rfl, rfl, h2⟩

/-- C3, witness: switch to "model-a" from the empty slot, then again. -/
theorem C3_idempotent_witness :
    countSpawns (switch_model ⟨none, none⟩ "model-a" 1
        ⟨true, ⟨true, none, fun _ => false, none⟩,
          ⟨fun _ => true, fun _ => false, "",
            ⟨true, none, fun _ => false, none⟩⟩⟩).2.2 = 1 ∧
    switch_model (switch_model ⟨none, none⟩ "model-a" 1
        ⟨true, ⟨true, none, fun _ => false, none⟩,
          ⟨fun _ => true, fun _ => false, "",
            ⟨true, none, fun _ => false, none⟩⟩⟩).1 "model-a" 2
        ⟨true, ⟨true, none, fun _ => false, none⟩,
          ⟨fun _ => true, fun _ => false, "",
            ⟨true, none, fun _ => false, none⟩⟩⟩ =
      ((switch_model ⟨none, none⟩ "model-a" 1
        ⟨true, ⟨true, none, fun _ => false, none⟩,
          ⟨fun _ => true, fun _ => false, "",
            ⟨true, none, fun _ => false, none⟩⟩⟩).1,
        SwitchResult.alreadyRunning, []) :=
  C3_idempotent ⟨none, none⟩ "model-a" 1 2
    ⟨true, ⟨true, none, fun _ => false, none⟩,
      ⟨fun _ => true, fun _ => false, "",
        ⟨true, none, fun _ => false, none⟩⟩⟩
    ⟨true, ⟨true, none, fun _ => false, none⟩,
      ⟨fun _ => true, fun _ => false, "",
        ⟨true, none, fun _ => false, none⟩⟩⟩ (by decide) rfl

/-- C4, counterexample: after a successful switch to "model-a" the status
endpoint reports the model exactly as requested — "model-a" — because
`current_model` stores the raw argument; the normalized
"mlx-community/model-a" appears only on the launch command line, so the
claim that `/status` shows the namespaced form is false on the code. -/
theorem C4_counterexample :
    (switch_model ⟨none, none⟩ "model-a" 1
        ⟨true, ⟨true, none, fun _ => false, none⟩,
          ⟨fun _ => true, fun _ => false, "",
            ⟨true, none, fun _ => false, none⟩⟩⟩).2.1
      = SwitchResult.switched ∧
    statusDynamic (switch_model ⟨none, none⟩ "model-a" 1
        ⟨true, ⟨true, none, fun _ => false, none⟩,
          ⟨fun _ => true, fun _ => false, "",
            ⟨true, none, fun _ => false, none⟩⟩⟩).1 true
      = ("running", some "model-a") ∧
    (some "model-a" : Option String) ≠ some "mlx-community/model-a" ∧
    (switch_model ⟨none, none⟩ "model-a" 1
        ⟨true, ⟨true, none, fun _ => false, none⟩,
          ⟨fun _ => true, fun _ => false, "",
            ⟨true, none, fun _ => false, none⟩⟩⟩).2.2
      = [Action.spawn 1 "mlx-community/model-a"] := by
  decide

/-- C4, amended: after a successful switch to a model `m`, `/status`
reports the dynamic slot running (given its process polls alive) with the
model identifier exactly as requested, un-normalized; the normalized
namespaced identifier is what the launch command received. -/
theorem C4_status_after_switch (st : WrapperState) (m : String) (pid : Nat)
    (env : SwitchEnv)
    (h : (switch_model st m pid env).2.1 = SwitchResult.switched) :
    statusDynamic (switch_model st m pid env).1 true = ("running", some m) ∧
    (∃ tail, (switch_model st m pid env).2.2 =
      killActsOf st env ++ Action.spawn pid (normalizeModelName m) :: tail) := by
  obtain ⟨hst, -⟩ := switch_model_switched_state st m pid env h
  constructor
  · rw [hst]
    rfl
  · by_cases hc : alreadyRunningCond st m env
    · rw [switch_model_already st m pid env hc] at h
      exact absurd h (by simp)
    · rcases hs : start_mlx_server pid m env.senv with ⟨r, acts⟩
      obtain ⟨tail, hacts, -⟩ := start_acts_shape pid m env.senv
      rw [hs] at hacts
      have hacts2 : acts = Action.spawn pid (normalizeModelName m) :: tail := hacts
      rcases r with e | q
      · rw [switch_model_err st m pid env e acts hc hs] at h
        exact absurd h (by simp)
      · rw [switch_model_ok st m pid q env acts hc hs]
        exact ⟨tail, by rw [hacts2]⟩

/-- C4, witness: the amended scenario A at "model-a". -/
theorem C4_status_after_switch_witness :
    statusDynamic (switch_model ⟨none, none⟩ "model-a" 1
        ⟨true, ⟨true, none, fun _ => false, none⟩,
          ⟨fun _ => true, fun _ => false, "",
            ⟨true, none, fun _ => false, none⟩⟩⟩).1 true
      = ("running", some "model-a") ∧
    (∃ tail, (switch_model ⟨none, none⟩ "model-a" 1
        ⟨true, ⟨true, none, fun _ => false, none⟩,
          ⟨fun _ => true, fun _ => false, "",
            ⟨true, none, fun _ => false, none⟩⟩⟩).2.2 =
      killActsOf ⟨none, none⟩
          ⟨true, ⟨true, none, fun _ => false, none⟩,
            ⟨fun _ => true, fun _ => false, "",
              ⟨true, none, fun _ => false, none⟩⟩⟩ ++
        Action.spawn 1 (normalizeModelName "model-a") :: tail) :=
  C4_status_after_switch ⟨none, none⟩ "model-a" 1
    ⟨true, ⟨true, none, fun _ => false, none⟩,
      ⟨fun _ => true, fun _ => false, "",
        ⟨true, none, fun _ => false, none⟩⟩⟩ (by decide)

/-- C10: when the recorded model equals the requested one but its process
polls dead, `switch_model` does not report already-running: it kills the
stale handle, clears the slot, and launches a fresh process — on success
the slot records the same model with the new pid, on failure it is left
empty. -/
theorem C10_dead_model_revived (st : WrapperState) (m : String) (p pid : Nat)
    (env : SwitchEnv) (_hm : st.current_model = some m)
    (hp : st.model_process = some p) (hdead : env.oldAlive = false) :
    (switch_model st m pid env).2.1 ≠ SwitchResult.alreadyRunning ∧
    (∃ tail, (switch_model st m pid env).2.2 =
        (kill_process (some p) env.oldKenv).acts ++
          Action.spawn pid (normalizeModelName m) :: tail) ∧
    ((switch_model st m pid env).2.1 = SwitchResult.switched →
      (switch_model st m pid env).1 = ⟨some m, some pid⟩) ∧
    (∀ e, (switch_model st m pid env).2.1 = SwitchResult.failed e →
      (switch_model st m pid env).1 = ⟨none, none⟩) := by
  have hc : ¬ alreadyRunningCond st m env := by
    intro h
    have h3 : env.oldAlive = true := h.2.2
    rw [hdead] at h3
    exact Bool.noConfusion h3
  have hkill : killActsOf st env = (kill_process (some p) env.oldKenv).acts := by
    unfold killActsOf
    rw [hp]
  have hclear : clearedOf st = ⟨none, none⟩ := by
    unfold clearedOf
    rw [hp]
  rcases hs : start_mlx_server pid m env.senv with ⟨r, acts⟩
  obtain ⟨tail, hacts, -⟩ := start_acts_shape pid m env.senv
  rw [hs] at hacts
  have hacts2 : acts = Action.spawn pid (normalizeModelName m) :: tail := hacts
  rcases r with e | q
  · rw [switch_model_err st m pid env e acts hc hs]
    refine ⟨by simp, ⟨tail, by rw [hacts2, hkill]⟩, ?_, ?_⟩
    · intro habs
      exact absurd habs (by simp)
    · intro e2 _
      exact hclear
  · have hq : q = pid := start_ok_val pid q m env.senv (by rw [hs])
    rw [switch_model_ok st m pid q env acts hc hs, hq]
    refine ⟨by simp, ⟨tail, by rw [hacts2, hkill]⟩, fun _ => rfl, ?_⟩
    intro e2 habs
    exact absurd habs (by simp)

/-- C10, witness: "m" recorded with a dead pid 1 is revived as pid 2. -/
theorem C10_dead_model_revived_witness :
    (switch_model ⟨some "m", some 1⟩ "m" 2
        ⟨false, ⟨true, none, fun _ => false, none⟩,
          ⟨fun _ => true, fun _ => false, "",
            ⟨true, none, fun _ => false, none⟩⟩⟩).2.1
      ≠ SwitchResult.alreadyRunning ∧
    (∃ tail, (switch_model ⟨some "m", some 1⟩ "m" 2
        ⟨false, ⟨true, none, fun _ => false, none⟩,
          ⟨fun _ => true, fun _ => false, "",
            ⟨true, none, fun _ => false, none⟩⟩⟩).2.2 =
        (kill_process (some 1) ⟨true, none, fun _ => false, none⟩).acts ++
          Action.spawn 2 (normalizeModelName "m") :: tail) ∧
    ((switch_model ⟨some "m", some 1⟩ "m" 2
        ⟨false, ⟨true, none, fun _ => false, none⟩,
          ⟨fun _ => true, fun _ => false, "",
            ⟨true, none, fun _ => false, none⟩⟩⟩).2.1 = SwitchResult.switched →
      (switch_model ⟨some "m", some 1⟩ "m" 2
        ⟨false, ⟨true, none, fun _ => false, none⟩,
          ⟨fun _ => true, fun _ => false, "",
            ⟨true, none, fun _ => false, none⟩⟩⟩).1 = ⟨some "m", some 2⟩) ∧
    (∀ e, (switch_model ⟨some "m", some 1⟩ "m" 2
        ⟨false, ⟨true, none, fun _ => false, none⟩,
          ⟨fun _ => true, fun _ => false, "",
            ⟨true, none, fun _ => false, none⟩⟩⟩).2.1 = SwitchResult.failed e →
      (switch_model ⟨some "m", some 1⟩ "m" 2
        ⟨false, ⟨true, none, fun _ => false, none⟩,
          ⟨fun _ => true, fun _ => false, "",
            ⟨true, none, fun _ => false, none⟩⟩⟩).1 = ⟨none, none⟩) :=
  C10_dead_model_revived ⟨some "m", some 1⟩ "m" 1 2
    ⟨false, ⟨true, none, fun _ => false, none⟩,
      ⟨fun _ => true, fun _ => false, "",
        ⟨true, none, fun _ => false, none⟩⟩⟩ rfl rfl rfl

/-- C1, counterexample: when signaling the old process group raises
`PermissionError`, `kill_process` swallows the error without delivering
any signal and `switch_model` proceeds to launch the new model anyway:
the old process (pid 1) is left alive and unsignaled while pid 2 is
spawned — two live processes for the dynamic slot, so the claim that the
old process is always fully terminated before the new launch is false on
the code. -/
theorem C1_counterexample :
    (kill_process (some 1)
        ⟨false, some SigError.permission, fun _ => false, none⟩).terminated
      = false ∧
    (switch_model ⟨some "model-a", some 1⟩ "model-b" 2
        ⟨true, ⟨false, some SigError.permission, fun _ => false, none⟩,
          ⟨fun _ => true, fun _ => false, "",
            ⟨true, none, fun _ => false, none⟩⟩⟩).2.1
      = SwitchResult.switched ∧
    (switch_model ⟨some "model-a", some 1⟩ "model-b" 2
        ⟨true, ⟨false, some SigError.permission, fun _ => false, none⟩,
          ⟨fun _ => true, fun _ => false, "",
            ⟨true, none, fun _ => false, none⟩⟩⟩).2.2
      = [Action.spawn 2 "mlx-community/model-b"] := by
  decide

/-- C1, amended: provided signaling the old process group is permitted
(no `PermissionError` from SIGTERM or SIGKILL), every `switch_model` call
that finds a different or dead model recorded terminates the old process
(dead by the time `kill_process` returns), emits no spawn during the kill
phase, clears the slot state, and only then emits the spawn of the new
process: the kill actions precede the spawn in the trace. -/
theorem C1_old_terminated_before_spawn (st : WrapperState) (m : String)
    (p pid : Nat) (env : SwitchEnv)
    (hp : st.model_process = some p)
    (hc : ¬ alreadyRunningCond st m env)
    (hterm : env.oldKenv.termErr ≠ some SigError.permission)
    (hkill : env.oldKenv.killErr ≠ some SigError.permission) :
    (kill_process (some p) env.oldKenv).terminated = true ∧
    countSpawns (kill_process (some p) env.oldKenv).acts = 0 ∧
    clearedOf st = ⟨none, none⟩ ∧
    (∃ tail, (switch_model st m pid env).2.2 =
        (kill_process (some p) env.oldKenv).acts ++
          Action.spawn pid (normalizeModelName m) :: tail) := by
  have hkacts : killActsOf st env = (kill_process (some p) env.oldKenv).acts := by
    unfold killActsOf
    rw [hp]
  have hclear : clearedOf st = ⟨none, none⟩ := by
    unfold clearedOf
    rw [hp]
  refine ⟨kill_terminated_of_no_permission _ _ hterm hkill,
    kill_countSpawns _ _, hclear, ?_⟩
  rcases hs : start_mlx_server pid m env.senv with ⟨r, acts⟩
  obtain ⟨tail, hacts, -⟩ := start_acts_shape pid m env.senv
  rw [hs] at hacts
  have hacts2 : acts = Action.spawn pid (normalizeModelName m) :: tail := hacts
  rcases r with e | q
  · rw [switch_model_err st m pid env e acts hc hs]
    exact ⟨tail, by rw [hacts2, hkacts]⟩
  · rw [switch_model_ok st m pid q env acts hc hs]
    exact ⟨tail, by rw [hacts2, hkacts]⟩

/-- C1, witness: a running "model-a" (pid 1) is replaced by "model-b"
(pid 2) under an environment where the old process dies during the grace
wait. -/
theorem C1_old_terminated_before_spawn_witness :
    (kill_process (some 1) ⟨false, none, fun _ => true, none⟩).terminated = true ∧
    countSpawns (kill_process (some 1) ⟨false, none, fun _ => true, none⟩).acts = 0 ∧
    clearedOf ⟨some "model-a", some 1⟩ = ⟨none, none⟩ ∧
    (∃ tail, (switch_model ⟨some "model-a", some 1⟩ "model-b" 2
        ⟨true, ⟨false, none, fun _ => true, none⟩,
          ⟨fun _ => true, fun _ => false, "",
            ⟨true, none, fun _ => false, none⟩⟩⟩).2.2 =
        (kill_process (some 1) ⟨false, none, fun _ => true, none⟩).acts ++
          Action.spawn 2 (normalizeModelName "model-b") :: tail) :=
  C1_old_terminated_before_spawn ⟨some "model-a", some 1⟩ "model-b" 1 2
    ⟨true, ⟨false, none, fun _ => true, none⟩,
      ⟨fun _ => true, fun _ => false, "",
        ⟨true, none, fun _ => false, none⟩⟩⟩
    rfl (by decide) (by decide) (by decide)

/-- C5: when readiness never succeeds and the child never dies within the
default budget of 60 one-unit attempts, the start attempt times out: the
switch returns the timeout failure, the slot ends with neither model nor
process recorded, and the half-started fresh process is handed to
`kill_process`, whose signals follow its spawn in the trace and (with
signal delivery permitted) leave it dead. -/
theorem C5_timeout (st : WrapperState) (m : String) (pid : Nat) (env : SwitchEnv)
    (hInv : Inv st) (hc : ¬ alreadyRunningCond st m env)
    (hh : ∀ i, i < max_retries → env.senv.health i = false)
    (hd : ∀ i, i < max_retries → env.senv.dead i = false)
    (hterm : env.senv.cleanupKenv.termErr ≠ some SigError.permission)
    (hkill : env.senv.cleanupKenv.killErr ≠ some SigError.permission) :
    (switch_model st m pid env).2.1 = SwitchResult.failed StartErr.timedOut ∧
    (switch_model st m pid env).1.current_model = none ∧
    (switch_model st m pid env).1.model_process = none ∧
    (kill_process (some pid) env.senv.cleanupKenv).terminated = true ∧
    (switch_model st m pid env).2.2 =
      killActsOf st env ++ Action.spawn pid (normalizeModelName m) ::
        (kill_process (some pid) env.senv.cleanupKenv).acts := by
  have hpoll : pollGo env.senv.health env.senv.dead 0 max_retries
      = (PollResult.timedOut, 0 + max_retries) :=
    pollGo_timedOut _ _ max_retries 0 (fun i _ hb => hh i (by omega))
      (fun i _ hb => hd i (by omega))
  have hs := start_eq_timedOut pid m env.senv (by rw [hpoll])
  rw [switch_model_err st m pid env _ _ hc hs]
  have hcl := clearedOf_state st hInv
  exact ⟨rfl, hcl.1, hcl.2,
    kill_terminated_of_no_permission _ _ hterm hkill, rfl⟩

/-- C5, witness: a switch from the empty slot whose fresh child is never
ready and never dies. -/
theorem C5_timeout_witness :
    (switch_model ⟨none, none⟩ "m" 1
        ⟨false, ⟨true, none, fun _ => false, none⟩,
          ⟨fun _ => false, fun _ => false, "",
            ⟨false, none, fun _ => false, none⟩⟩⟩).2.1
      = SwitchResult.failed StartErr.timedOut ∧
    (switch_model ⟨none, none⟩ "m" 1
        ⟨false, ⟨true, none, fun _ => false, none⟩,
          ⟨fun _ => false, fun _ => false, "",
            ⟨false, none, fun _ => false, none⟩⟩⟩).1.current_model = none ∧
    (switch_model ⟨none, none⟩ "m" 1
        ⟨false, ⟨true, none, fun _ => false, none⟩,
          ⟨fun _ => false, fun _ => false, "",
            ⟨false, none, fun _ => false, none⟩⟩⟩).1.model_process = none ∧
    (kill_process (some 1) ⟨false, none, fun _ => false, none⟩).terminated = true ∧
    (switch_model ⟨none, none⟩ "m" 1
        ⟨false, ⟨true, none, fun _ => false, none⟩,
          ⟨fun _ => false, fun _ => false, "",
            ⟨false, none, fun _ => false, none⟩⟩⟩).2.2 =
      killActsOf ⟨none, none⟩
          ⟨false, ⟨true, none, fun _ => false, none⟩,
            ⟨fun _ => false, fun _ => false, "",
              ⟨false, none, fun _ => false, none⟩⟩⟩ ++
        Action.spawn 1 (normalizeModelName "m") ::
          (kill_process (some 1) ⟨false, none, fun _ => false, none⟩).acts :=
  C5_timeout ⟨none, none⟩ "m" 1
    ⟨false, ⟨true, none, fun _ => false, none⟩,
      ⟨fun _ => false, fun _ => false, "",
        ⟨false, none, fun _ => false, none⟩⟩⟩
    (by decide) (by decide) (fun i _ => rfl) (fun i _ => rfl)
    (by decide) (by decide)

/-- C6: if the child is first observed dead on attempt `k` before any
readiness success, the polling loop stops right there — after `k + 1`
retries, not the full budget of 60 — the switch fails carrying the
captured stderr text, the slot ends with no process recorded, and
`/status` subsequently reports the dynamic slot stopped. -/
theorem C6_process_death (st : WrapperState) (m : String) (pid k : Nat)
    (env : SwitchEnv) (hInv : Inv st)
    (hc : ¬ alreadyRunningCond st m env)
    (hk : k < max_retries)
    (hh : ∀ i, i ≤ k → env.senv.health i = false)
    (hd : ∀ i, i < k → env.senv.dead i = false)
    (hdk : env.senv.dead k = true) :
    (switch_model st m pid env).2.1 =
      SwitchResult.failed (StartErr.died env.senv.stderrText) ∧
    (pollGo env.senv.health env.senv.dead 0 max_retries).2 = k + 1 ∧
    (switch_model st m pid env).1.model_process = none ∧
    (∀ b, (statusDynamic (switch_model st m pid env).1 b).1 = "stopped") := by
  have hpoll : pollGo env.senv.health env.senv.dead 0 max_retries
      = (PollResult.died, k + 1) :=
    pollGo_died _ _ max_retries 0 k (Nat.zero_le k) (by omega)
      (fun i _ hb => hh i hb) (fun i _ hb => hd i hb) hdk
  have hs := start_eq_died pid m env.senv (by rw [hpoll])
  rw [switch_model_err st m pid env _ _ hc hs]
  have hcl := clearedOf_state st hInv
  refine ⟨rfl, by rw [hpoll], hcl.2, ?_⟩
  intro b
  show (statusDynamic (clearedOf st) b).1 = "stopped"
  simp [statusDynamic, hcl.2]

/-- C6, witness: the fresh child is already dead at the first liveness
check. -/
theorem C6_process_death_witness :
    (switch_model ⟨none, none⟩ "m" 1
        ⟨false, ⟨true, none, fun _ => false, none⟩,
          ⟨fun _ => false, fun _ => true, "boom",
            ⟨true, none, fun _ => false, none⟩⟩⟩).2.1
      = SwitchResult.failed (StartErr.died "boom") ∧
    (pollGo (fun _ => false) (fun _ => true) 0 max_retries).2 = 0 + 1 ∧
    (switch_model ⟨none, none⟩ "m" 1
        ⟨false, ⟨true, none, fun _ => false, none⟩,
          ⟨fun _ => false, fun _ => true, "boom",
            ⟨true, none, fun _ => false, none⟩⟩⟩).1.model_process = none ∧
    (∀ b, (statusDynamic (switch_model ⟨none, none⟩ "m" 1
        ⟨false, ⟨true, none, fun _ => false, none⟩,
          ⟨fun _ => false, fun _ => true, "boom",
            ⟨true, none, fun _ => false, none⟩⟩⟩).1 b).1 = "stopped") :=
  C6_process_death ⟨none, none⟩ "m" 1 0
    ⟨false, ⟨true, none, fun _ => false, none⟩,
      ⟨fun _ => false, fun _ => true, "boom",
        ⟨true, none, fun _ => false, none⟩⟩⟩
    (by decide) (by decide) (by decide)
    (fun i _ => rfl) (fun i hi => absurd hi (Nat.not_lt_zero i)) rfl

end MlxWrapper
